import Mathlib

/-!
Shallow embedding of the zone database reload engine
(knot/server/zone-load.c) and verification of its specification.

Domain names and file paths are modelled as atoms (Nat) with decidable
equality.  zone_t and knot_zone_contents_t objects live in an explicit
heap keyed by allocation identity, so that the pointer identity and
pointer mutation of the C source are captured faithfully: a C pointer is
a ZoneId / ContentsId, writes through pointers are heap updates, and
free is removal from the heap.  External collaborators (stat(2), the
zone file parser, journal replay, diff-and-sign, the server's EDNS
option) are oracles fixed for one reload cycle.  Allocation failure
(KNOT_ENOMEM paths) is not modelled: the allocator always succeeds.
Logging calls carry no modelled state.
-/

namespace KnotReload

abbrev DName := Nat
abbrev FileAtom := Nat
abbrev ZoneId := Nat
abbrev ContentsId := Nat

/-- Subset of the knot error codes used by zone-load.c.  The values are
distinct atoms; the source only ever compares them for equality. -/
def KNOT_EOK : Int := 0

def KNOT_ERROR : Int := -1

def KNOT_EINVAL : Int := -2

def KNOT_ENOMEM : Int := -3

def KNOT_ENOENT : Int := -4

def KNOT_ERANGE : Int := -5

def KNOT_EZONENOENT : Int := -6

/-- Minimum EDNS0 payload for DNSSEC-enabled zones (RFC 4035 sec. 3). -/
def EDNS_MIN_DNSSEC_PAYLOAD : Nat := 1220

/-- Result of stat(2) on a zone file, as used by the source: only the
modification time is consulted. -/
structure StatInfo where
  st_mtime : Int
  deriving DecidableEq

/-- knot_zone_contents_t: the parsed record data of a zone.  `zone` is the
back-reference contents->zone through which the source tracks the owning
zone_t.  `serial` is the SOA serial at the apex; `nsec3_res` is the result
knot_zone_contents_load_nsec3param returns for this data; `is_signed` is
what knot_zone_contents_is_signed returns. -/
structure ZoneContentsObj where
  zone : Option ZoneId
  serial : Nat
  nsec3_res : Int
  is_signed : Bool
  deriving DecidableEq

/-- zone_t: a served zone instance (the fields zone-load.c reads or
writes; the server back-reference and the timers carry no modelled
state). -/
structure ZoneObj where
  name : DName
  contents : Option ContentsId
  zonefile_mtime : Int
  zonefile_serial : Nat
  deriving DecidableEq

/-- Explicit heap of zone_t and knot_zone_contents_t objects.  `nextZone`
and `nextCont` are the next fresh allocation identities. -/
structure Heap where
  zones : ZoneId → Option ZoneObj
  conts : ContentsId → Option ZoneContentsObj
  nextZone : ZoneId
  nextCont : ContentsId

def Heap.zone (h : Heap) (z : ZoneId) : Option ZoneObj := h.zones z

def Heap.cont (h : Heap) (c : ContentsId) : Option ZoneContentsObj := h.conts c

def Heap.setZone (h : Heap) (z : ZoneId) (o : ZoneObj) : Heap :=
  { h with zones := fun x => if x = z then some o else h.zones x }

def Heap.setCont (h : Heap) (c : ContentsId) (o : ZoneContentsObj) : Heap :=
  { h with conts := fun x => if x = c then some o else h.conts x }

def Heap.delZone (h : Heap) (z : ZoneId) : Heap :=
  { h with zones := fun x => if x = z then none else h.zones x }

def Heap.delCont (h : Heap) (c : ContentsId) : Heap :=
  { h with conts := fun x => if x = c then none else h.conts x }

def Heap.allocZone (h : Heap) (o : ZoneObj) : ZoneId × Heap :=
  (h.nextZone,
   { h with zones := fun x => if x = h.nextZone then some o else h.zones x,
            nextZone := h.nextZone + 1 })

/-- conf_zone_t: the per-zone configuration fields zone-load.c consumes —
name, source file, the xfr-in ACL (conf->acl.xfr_in, as a list of remote
atoms) and the sync timeout. -/
structure ConfZone where
  name : DName
  file : FileAtom
  xfr_in : List Nat
  dbsync_timeout : Int
  deriving DecidableEq

/-- Result of one knot_zload_open + knot_zload_load parse: the built
zone's apex name and the properties of its freshly parsed contents. -/
structure ParsedZone where
  name : DName
  serial : Nat
  nsec3_res : Int
  is_signed : Bool
  deriving DecidableEq

/-- External collaborators of zone-load.c, fixed for one reload cycle:
stat(2), the zone file loader, journal replay (zones_journal_apply),
diff-and-sign (zones_do_diff_and_sign, keyed by zone name and the
new_content flag), and the payload of ns->opt_rr.  The journal and
signer are keyed by the zone's name: on every path that reaches them the
new zone's name equals the configured name. -/
structure Env where
  fs : FileAtom → Option StatInfo
  zload : ConfZone → Option ParsedZone
  journal : DName → Int
  sign : DName → Bool → Int
  edns_payload : Nat

/-- Zone file status (zone_status_t). -/
inductive zone_status_t where
  | ZONE_STATUS_NOT_FOUND
  | ZONE_STATUS_FOUND_NEW
  | ZONE_STATUS_FOUND_CURRENT
  | ZONE_STATUS_FOUND_UPDATED
  deriving DecidableEq

/-- zone_file_status (zone-load.c:316-331): stat the file; absent file is
NOT_FOUND, no previous zone is FOUND_NEW, equal recorded and current
modification time is FOUND_CURRENT, anything else FOUND_UPDATED.  The
function only reads; it is pure by construction. -/
def zone_file_status (env : Env) (old_zone : Option ZoneObj) (filename : FileAtom) :
    zone_status_t :=
  match env.fs filename with
  | none => .ZONE_STATUS_NOT_FOUND
  | some zf_stat =>
    match old_zone with
    | none => .ZONE_STATUS_FOUND_NEW
    | some oz =>
      if oz.zonefile_mtime = zf_stat.st_mtime then .ZONE_STATUS_FOUND_CURRENT
      else .ZONE_STATUS_FOUND_UPDATED

/-- Modelled from the spec: `zone_new` (knot/zone/zone.c, not under src/)
allocates a fresh Zone shell for a configuration — the configured name,
no contents, and zeroed change-detection metadata. -/
def zone_new (conf : ConfZone) (h : Heap) : ZoneId × Heap :=
  h.allocZone { name := conf.name, contents := none,
                zonefile_mtime := 0, zonefile_serial := 0 }

/-- Modelled from the spec: `zone_deep_free` (not under src/) destroys a
Zone and discards the contents it still references ("if content was
freshly parsed, discard it entirely"); whenever contents must survive a
zone's destruction the source clears the contents field first. -/
def zone_deep_free (h : Heap) (z : ZoneId) : Heap :=
  match h.zone z with
  | none => h
  | some zo =>
    match zo.contents with
    | none => h.delZone z
    | some c => (h.delZone z).delCont c

/-- bootstrap_zone (zone-load.c:342-359): only possible when
conf->acl.xfr_in is non-empty; then a fresh empty shell is allocated. -/
def bootstrap_zone (conf : ConfZone) (h : Heap) : Option ZoneId × Heap :=
  if conf.xfr_in.isEmpty then (none, h)
  else
    let p := zone_new conf h
    (some p.1, p.2)

/-- load_zone (zone-load.c:368-423): open and parse the file (failure
yields NULL); the parse allocates a zone owning freshly parsed contents;
compare the parsed apex name with the configured name
(knot_dname_cmp != 0 is a hard failure, the zone is deep-freed); then
stat the file again and record st_mtime and the contents' SOA serial on
the new zone (a failing stat also deep-frees). -/
def load_zone (env : Env) (conf : ConfZone) (h : Heap) : Option ZoneId × Heap :=
  match env.zload conf with
  | none => (none, h)
  | some pz =>
    let cid := h.nextCont
    let zid := h.nextZone
    let h1 : Heap :=
      { zones := fun x => if x = zid then
            some { name := pz.name, contents := some cid,
                   zonefile_mtime := 0, zonefile_serial := 0 }
          else h.zones x,
        conts := fun x => if x = cid then
            some { zone := some zid, serial := pz.serial,
                   nsec3_res := pz.nsec3_res, is_signed := pz.is_signed }
          else h.conts x,
        nextZone := zid + 1, nextCont := cid + 1 }
    if pz.name = conf.name then
      match env.fs conf.file with
      | none => (none, zone_deep_free h1 zid)
      | some st =>
        (some zid,
         h1.setZone zid { name := pz.name, contents := some cid,
                          zonefile_mtime := st.st_mtime,
                          zonefile_serial := pz.serial })
    else
      (none, zone_deep_free h1 zid)

/-- preserve_zone (zone-load.c:429-444): allocate a new shell with
zone_new, set new_zone->contents = old_zone->contents and redirect the
contents' back-reference, new_zone->contents->zone = new_zone ("hopefully
temporary").  The old zone's contents field is NOT cleared and its
recorded mtime/serial are NOT copied onto the new shell.  The source
dereferences the contents unconditionally; the cases below in which the
old zone is absent or has no contents would fault in C and are
unreachable on the reload paths exercised here (a bootstrapped
placeholder has no contents, but its recorded mtime would have to equal
the reappeared file's mtime for this branch to be reached). -/
def preserve_zone (conf : ConfZone) (old_id : ZoneId) (h : Heap) :
    Option ZoneId × Heap :=
  match h.zone old_id with
  | none => (none, h)
  | some oldz =>
    let p := zone_new conf h
    let zid := p.1
    let h1 := p.2.setZone zid
      { name := conf.name, contents := oldz.contents,
        zonefile_mtime := 0, zonefile_serial := 0 }
    match oldz.contents with
    | none => (some zid, h1)
    | some c =>
      match h1.cont c with
      | none => (some zid, h1)
      | some co => (some zid, h1.setCont c { co with zone := some zid })

/-- create_zone (zone-load.c:488-522): classify, then dispatch to
bootstrap_zone / load_zone / preserve_zone.  Setting new_zone->server,
zone_reset_timers and log_zone_load_info carry no modelled state.  The
FOUND_CURRENT case always has a previous zone (otherwise the status
would have been FOUND_NEW). -/
def create_zone (env : Env) (old_id : Option ZoneId) (conf : ConfZone) (h : Heap) :
    zone_status_t × Option ZoneId × Heap :=
  let zstatus := zone_file_status env (old_id.bind h.zone) conf.file
  let r : Option ZoneId × Heap :=
    match zstatus, old_id with
    | .ZONE_STATUS_NOT_FOUND, _ => bootstrap_zone conf h
    | .ZONE_STATUS_FOUND_NEW, _ => load_zone env conf h
    | .ZONE_STATUS_FOUND_UPDATED, _ => load_zone env conf h
    | .ZONE_STATUS_FOUND_CURRENT, some oid => preserve_zone conf oid h
    | .ZONE_STATUS_FOUND_CURRENT, none => (none, h)
  (zstatus, r.1, r.2)

/-- Observable pipeline events of update_zone, in the order the source
performs them: journal replay, diff-and-sign, scheduling the periodic
secondary-sync timer, NSEC3PARAM validation, the EDNS payload warning. -/
inductive PipelineEvent where
  | journalApply (res : Int)
  | diffAndSign (content_changed : Bool) (res : Int)
  | scheduleSync (timeout : Int)
  | nsec3Check (res : Int)
  | ednsWarn
  deriving DecidableEq

structure UpdateResult where
  res : Int
  dst : Option ZoneId
  heap : Heap
  trace : List PipelineEvent

/-- Epilogue of update_zone (the code from the fail: label on,
zone-load.c:592-607): on KNOT_EOK publish the zone to *dst; otherwise,
when the content was recycled (new_content false), rebind it to the old
zone (old_zone->contents->zone = old_zone) and clear the new shell's
reference (new_zone->contents = NULL), then zone_deep_free the shell.
With new_content false the source is guaranteed a live old zone with
contents; a missing one would fault in C. -/
def update_zone_epilogue (old_id : Option ZoneId) (new_zone : ZoneId)
    (new_content : Bool) (result : Int) (h : Heap) (tr : List PipelineEvent) :
    UpdateResult :=
  if result = KNOT_EOK then
    { res := result, dst := some new_zone, heap := h, trace := tr }
  else
    let h1 :=
      if new_content then h
      else
        match old_id with
        | none => h
        | some oid =>
          let h2 :=
            match (h.zone oid).bind (fun z => z.contents) with
            | none => h
            | some c =>
              match h.cont c with
              | none => h
              | some co => h.setCont c { co with zone := some oid }
          match h2.zone new_zone with
          | none => h2
          | some nz => h2.setZone new_zone { nz with contents := none }
    { res := result, dst := none, heap := zone_deep_free h1 new_zone, trace := tr }

/-- The zone-load.c:550 computation
new_content = (old_zone == NULL || old_zone->contents != new_zone->contents),
comparing the two contents pointers. -/
def update_zone_new_content (old_id : Option ZoneId) (h1 : Heap)
    (new_zone : ZoneId) : Bool :=
  match old_id with
  | none => true
  | some oid =>
    decide (¬ ((h1.zone oid).bind (fun z => z.contents) =
               (h1.zone new_zone).bind (fun z => z.contents)))

/-- Tail of update_zone after create_zone succeeded (zone-load.c:550-607):
compute
new_content = (old_zone == NULL || old_zone->contents != new_zone->contents);
apply the journal, tolerating KNOT_EOK, KNOT_ERANGE and KNOT_ENOENT and
aborting on anything else; diff-and-sign with the new_content flag,
aborting on failure; schedule the IXFR sync timer; then, when the new
zone has contents, check NSEC3PARAM (aborting on failure) and warn when
a signed zone is served with an EDNS payload below the DNSSEC minimum. -/
def update_zone_pipeline (env : Env) (old_id : Option ZoneId) (conf : ConfZone)
    (new_zone : ZoneId) (h1 : Heap) : UpdateResult :=
    let new_content : Bool := update_zone_new_content old_id h1 new_zone
    let r1 := env.journal conf.name
    let tr1 := [PipelineEvent.journalApply r1]
    if ¬ r1 = KNOT_EOK ∧ ¬ r1 = KNOT_ERANGE ∧ ¬ r1 = KNOT_ENOENT then
      update_zone_epilogue old_id new_zone new_content r1 h1 tr1
    else
      let r2 := env.sign conf.name new_content
      let tr2 := tr1 ++ [PipelineEvent.diffAndSign new_content r2]
      if ¬ r2 = KNOT_EOK then
        update_zone_epilogue old_id new_zone new_content r2 h1 tr2
      else
        let tr3 := tr2 ++ [PipelineEvent.scheduleSync conf.dbsync_timeout]
        match (h1.zone new_zone).bind (fun z => z.contents) with
        | none => update_zone_epilogue old_id new_zone new_content r2 h1 tr3
        | some cid =>
          match h1.cont cid with
          | none => update_zone_epilogue old_id new_zone new_content r2 h1 tr3
          | some co =>
            let r3 := co.nsec3_res
            let tr4 := tr3 ++ [PipelineEvent.nsec3Check r3]
            if ¬ r3 = KNOT_EOK then
              update_zone_epilogue old_id new_zone new_content r3 h1 tr4
            else
              let tr5 :=
                if co.is_signed ∧ env.edns_payload < EDNS_MIN_DNSSEC_PAYLOAD then
                  tr4 ++ [PipelineEvent.ednsWarn]
                else tr4
              update_zone_epilogue old_id new_zone new_content KNOT_EOK h1 tr5

/-- update_zone (zone-load.c:534-608): create the zone (failure is
KNOT_EZONENOENT), then run the pipeline tail above on it. -/
def update_zone (env : Env) (old_id : Option ZoneId) (conf : ConfZone) (h : Heap) :
    UpdateResult :=
  match (create_zone env old_id conf h).2.1, (create_zone env old_id conf h).2.2 with
  | none, h1 => { res := KNOT_EZONENOENT, dst := none, heap := h1, trace := [] }
  | some new_zone, h1 => update_zone_pipeline env old_id conf new_zone h1

/-- knot_zonedb_t: the C database stores zone_t pointers keyed by name;
here a list of zone identities, looked up through the heap by name. -/
abbrev ZoneDB := List ZoneId

def knot_zonedb_find (h : Heap) (db : ZoneDB) (name : DName) : Option ZoneId :=
  db.find? (fun z => decide (((h.zone z).map (fun o => o.name)) = some name))

/-- Modelled from the spec: knot_zonedb_insert (not under src/) adds a
zone under its name; names are unique, so insertion fails on a
duplicate. -/
def knot_zonedb_insert (h : Heap) (db : ZoneDB) (z : ZoneId) : Int × ZoneDB :=
  match (h.zone z).map (fun o => o.name) with
  | none => (KNOT_EINVAL, db)
  | some n =>
    if (knot_zonedb_find h db n).isSome then (KNOT_ERROR, db)
    else (KNOT_EOK, z :: db)

def knot_zonedb_del (h : Heap) (db : ZoneDB) (name : DName) : ZoneDB :=
  db.filter (fun z => decide (¬ ((h.zone z).map (fun o => o.name)) = some name))

/-- One iteration of zone_loader_thread's loop (zone-load.c:629-676) for a
popped configuration: look up the old zone in the live database
(ctx->ns->zone_db), freeze it (synchronization only — no modelled
state), run update_zone, and on success insert into db_new under the
insertion lock.  An insertion failure logs, rebinds recycled content to
the old zone, clears the shell's reference and deep-frees the shell —
and the loop continues.  On update failure the configuration entry is
discarded (configuration ownership, no modelled state). -/
def zone_loader_step (env : Env) (ns_db : ZoneDB) (conf : ConfZone) (h : Heap)
    (db_new : ZoneDB) : Heap × ZoneDB :=
  let old_id := knot_zonedb_find h ns_db conf.name
  let u := update_zone env old_id conf h
  if u.res = KNOT_EOK then
    match u.dst with
    | none => (u.heap, db_new)
    | some z =>
      let ins := knot_zonedb_insert u.heap db_new z
      if ins.1 = KNOT_EOK then (u.heap, ins.2)
      else
        let h1 := u.heap
        let h3 :=
          match old_id with
          | none => h1
          | some oid =>
            if ((h1.zone oid).bind (fun zz => zz.contents)) =
               ((h1.zone z).bind (fun zz => zz.contents)) then
              let h2 :=
                match (h1.zone oid).bind (fun zz => zz.contents) with
                | none => h1
                | some c =>
                  match h1.cont c with
                  | none => h1
                  | some co => h1.setCont c { co with zone := some oid }
              match h2.zone z with
              | none => h2
              | some nz => h2.setZone z { nz with contents := none }
            else h1
        (zone_deep_free h3 z, db_new)
  else
    (u.heap, db_new)

/-- zone_loader_thread over the whole work list.  The workers pop
configurations one at a time under the queue mutex; every per-item
action is itself serialized by the locks, so one cycle is modelled as
the sequential run.  The thread returns KNOT_EOK when the queue is
drained (the knot_dname_from_str allocation-failure early return is not
modelled). -/
def zone_loader_run (env : Env) (ns_db : ZoneDB) (confs : List ConfZone)
    (h : Heap) (db_new : ZoneDB) : Int × Heap × ZoneDB :=
  match confs with
  | [] => (KNOT_EOK, h, db_new)
  | c :: cs =>
    let s := zone_loader_step env ns_db c h db_new
    zone_loader_run env ns_db cs s.1 s.2

/-- load_zonedb (zone-load.c:698-735): allocate the new database and run
the loader pool to completion over the configured zones (allocation and
mutex initialization always succeed in the model). -/
def load_zonedb (env : Env) (ns_db : ZoneDB) (conf_zones : List ConfZone)
    (h : Heap) : Heap × ZoneDB :=
  let r := zone_loader_run env ns_db conf_zones h []
  (r.2.1, r.2.2)

/-- remove_zones (zone-load.c:749-771): walk the new database; for each
entry find the samely-named entry of the old database and delete it from
the old database only when the two zone_t pointers are identical. -/
def remove_zones (h : Heap) (db_new : ZoneDB) (db_old : ZoneDB) : Int × ZoneDB :=
  let final := db_new.foldl (fun acc new_zone =>
    match (h.zone new_zone).map (fun o => o.name) with
    | none => acc
    | some zone_name =>
      match knot_zonedb_find h acc zone_name with
      | none => acc
      | some old_zone =>
        if old_zone = new_zone then knot_zonedb_del h acc zone_name else acc)
    db_old
  (KNOT_EOK, final)

/-- conf_t: the configured zone list consumed by one reload cycle. -/
structure Conf where
  zones : List ConfZone

/-- knot_nameserver_t: the live zone database reference (NULL-able). -/
structure Nameserver where
  zone_db : Option ZoneDB
  deriving DecidableEq

/-- Outcome of zones_update_db_from_config: the return code, the
nameserver afterwards (its zone_db possibly swapped), the value written
through the db_old out-parameter (none when the function returned before
writing it), and the final heap. -/
structure ReloadOutcome where
  res : Int
  ns : Option Nameserver
  db_old_out : Option ZoneDB
  heap : Heap

/-- zones_update_db_from_config (zone-load.c:778-842): guard against NULL
conf/ns (KNOT_EINVAL) and a missing live database (KNOT_ENOENT); build
the new database with load_zonedb; store the old database through
*db_old; build the search index (no modelled state) and atomically
exchange ns->zone_db; then remove_zones prunes pointer-identical entries
from the old database.  The RCU lock/unlock pair and logging carry no
modelled state; load_zonedb allocation failure is not modelled. -/
def zones_update_db_from_config (env : Env) (conf : Option Conf)
    (ns : Option Nameserver) (h : Heap) : ReloadOutcome :=
  match conf, ns with
  | none, _ => { res := KNOT_EINVAL, ns := ns, db_old_out := none, heap := h }
  | some _, none => { res := KNOT_EINVAL, ns := none, db_old_out := none, heap := h }
  | some cf, some n =>
    match n.zone_db with
    | none => { res := KNOT_ENOENT, ns := some n, db_old_out := none, heap := h }
    | some live =>
      let l := load_zonedb env live cf.zones h
      let db_new := l.2
      let h1 := l.1
      let rz := remove_zones h1 db_new live
      { res := rz.1, ns := some { zone_db := some db_new },
        db_old_out := some rz.2, heap := h1 }

/-! Concrete fixtures used to evaluate the model on explicit inputs.
Names and files are atoms: zone A is name 1 over file 1, zone B name 2
over file 2, zone C name 3 over file 3. -/

def heapEmpty : Heap :=
  { zones := fun _ => none, conts := fun _ => none, nextZone := 0, nextCont := 0 }

/-- Contents of the previously loaded zone A (identity 0, owned by zone 0). -/
def contA : ZoneContentsObj :=
  { zone := some 0, serial := 1, nsec3_res := KNOT_EOK, is_signed := false }

/-- Previously loaded zone A: identity 0, contents 0, recorded mtime 5. -/
def zoneAold : ZoneObj :=
  { name := 1, contents := some 0, zonefile_mtime := 5, zonefile_serial := 1 }

/-- Heap holding just the live zone A. -/
def heap0 : Heap :=
  { zones := fun x => if x = 0 then some zoneAold else none,
    conts := fun x => if x = 0 then some contA else none,
    nextZone := 1, nextCont := 1 }

def confA : ConfZone := { name := 1, file := 1, xfr_in := [], dbsync_timeout := 10 }

def confB : ConfZone := { name := 2, file := 2, xfr_in := [], dbsync_timeout := 10 }

/-- Zone C's file is absent; one xfr-in source (atom 9) is configured. -/
def confC : ConfZone := { name := 3, file := 3, xfr_in := [9], dbsync_timeout := 10 }

/-- Contents of the previously loaded zone B (identity 1, owned by zone 1). -/
def contB : ZoneContentsObj :=
  { zone := some 1, serial := 1, nsec3_res := KNOT_EOK, is_signed := false }

/-- Previously loaded zone B: identity 1, contents 1, recorded mtime 3. -/
def zoneBold : ZoneObj :=
  { name := 2, contents := some 1, zonefile_mtime := 3, zonefile_serial := 1 }

/-- Heap for the A/B/C scenario: live zones A (id 0) and B (id 1). -/
def heapS : Heap :=
  { zones := fun x => if x = 0 then some zoneAold
             else if x = 1 then some zoneBold else none,
    conts := fun x => if x = 0 then some contA
             else if x = 1 then some contB else none,
    nextZone := 2, nextCont := 2 }

/-- Environment for the A/B/C scenario: A's file mtime unchanged (5),
B's advanced (7 versus recorded 3), C's file absent; B reparses to
serial 2; journal and signing succeed everywhere. -/
def envS : Env :=
  { fs := fun f => if f = 1 then some { st_mtime := 5 }
          else if f = 2 then some { st_mtime := 7 } else none,
    zload := fun conf => if conf.file = 2 then
        some { name := 2, serial := 2, nsec3_res := KNOT_EOK, is_signed := false }
      else none,
    journal := fun _ => KNOT_EOK,
    sign := fun _ _ => KNOT_EOK,
    edns_payload := 4096 }

def confS : Conf := { zones := [confA, confB, confC] }

def nsS : Nameserver := { zone_db := some [0, 1] }

/-- Configurations for the duplicate-name scenario: two configurations
share name 1 (files 1 and 4), one more has name 2. -/
def confA2 : ConfZone := { name := 1, file := 4, xfr_in := [], dbsync_timeout := 10 }

/-- Environment for the duplicate-name scenario: all three files parse. -/
def env3 : Env :=
  { fs := fun f => if f = 1 then some { st_mtime := 5 }
          else if f = 4 then some { st_mtime := 6 }
          else if f = 2 then some { st_mtime := 7 } else none,
    zload := fun conf => if conf.file = 1 then
        some { name := 1, serial := 1, nsec3_res := KNOT_EOK, is_signed := false }
      else if conf.file = 4 then
        some { name := 1, serial := 2, nsec3_res := KNOT_EOK, is_signed := false }
      else if conf.file = 2 then
        some { name := 2, serial := 3, nsec3_res := KNOT_EOK, is_signed := false }
      else none,
    journal := fun _ => KNOT_EOK,
    sign := fun _ _ => KNOT_EOK,
    edns_payload := 4096 }

/-- Environment in which the journal replay reports KNOT_ERANGE for every
zone and everything else succeeds. -/
def env5 : Env :=
  { fs := fun f => if f = 1 then some { st_mtime := 5 } else none,
    zload := fun _ => none,
    journal := fun _ => KNOT_ERANGE,
    sign := fun _ _ => KNOT_EOK,
    edns_payload := 4096 }

/-- Previously loaded zone A with recorded serial 9 (for the two-cycle
reload experiment). -/
def zoneA9 : ZoneObj :=
  { name := 1, contents := some 0, zonefile_mtime := 5, zonefile_serial := 9 }

def contA9 : ZoneContentsObj :=
  { zone := some 0, serial := 9, nsec3_res := KNOT_EOK, is_signed := false }

def heap9 : Heap :=
  { zones := fun x => if x = 0 then some zoneA9 else none,
    conts := fun x => if x = 0 then some contA9 else none,
    nextZone := 1, nextCont := 1 }

/-- Environment for the two-cycle experiment: file 1 keeps mtime 5
throughout; a reparse would yield serial 10. -/
def env9 : Env :=
  { fs := fun f => if f = 1 then some { st_mtime := 5 } else none,
    zload := fun conf => if conf.file = 1 then
        some { name := 1, serial := 10, nsec3_res := KNOT_EOK, is_signed := false }
      else none,
    journal := fun _ => KNOT_EOK,
    sign := fun _ _ => KNOT_EOK,
    edns_payload := 4096 }

def conf9 : Conf := { zones := [confA] }

def ns9 : Nameserver := { zone_db := some [0] }

/-- Environment in which file 1 parses to a mismatching apex (atom 7
instead of the configured 1). -/
def envM : Env :=
  { fs := fun f => if f = 1 then some { st_mtime := 5 } else none,
    zload := fun conf => if conf.file = 1 then
        some { name := 7, serial := 1, nsec3_res := KNOT_EOK, is_signed := false }
      else none,
    journal := fun _ => KNOT_EOK,
    sign := fun _ _ => KNOT_EOK,
    edns_payload := 4096 }

/-- Environment in which diff-and-sign fails for every zone. -/
def envF : Env :=
  { fs := fun f => if f = 1 then some { st_mtime := 5 } else none,
    zload := fun _ => none,
    journal := fun _ => KNOT_EOK,
    sign := fun _ _ => KNOT_ERROR,
    edns_payload := 4096 }

/-! From here on: theorems.  First generic lemmas about the heap and the
loader loop, then one theorem per claim of the specification (with its
counterexample / witness companions). -/

theorem Heap.zone_setCont (h : Heap) (c : ContentsId) (o : ZoneContentsObj)
    (z : ZoneId) : (h.setCont c o).zone z = h.zone z := rfl

theorem Heap.cont_setZone (h : Heap) (z : ZoneId) (o : ZoneObj)
    (c : ContentsId) : (h.setZone z o).cont c = h.cont c := rfl

theorem Heap.cont_delZone (h : Heap) (z : ZoneId) (c : ContentsId) :
    (h.delZone z).cont c = h.cont c := rfl

theorem Heap.zone_delCont (h : Heap) (c : ContentsId) (z : ZoneId) :
    (h.delCont c).zone z = h.zone z := rfl

theorem Heap.zone_setZone_self (h : Heap) (z : ZoneId) (o : ZoneObj) :
    (h.setZone z o).zone z = some o := by
  simp [Heap.setZone, Heap.zone]

theorem Heap.zone_setZone_ne (h : Heap) (z : ZoneId) (o : ZoneObj)
    (z' : ZoneId) (hne : z' ≠ z) : (h.setZone z o).zone z' = h.zone z' := by
  simp [Heap.setZone, Heap.zone, hne]

theorem Heap.cont_setCont_self (h : Heap) (c : ContentsId) (o : ZoneContentsObj) :
    (h.setCont c o).cont c = some o := by
  simp [Heap.setCont, Heap.cont]

theorem Heap.cont_setCont_ne (h : Heap) (c : ContentsId) (o : ZoneContentsObj)
    (c' : ContentsId) (hne : c' ≠ c) : (h.setCont c o).cont c' = h.cont c' := by
  simp [Heap.setCont, Heap.cont, hne]

theorem Heap.zone_delZone_self (h : Heap) (z : ZoneId) :
    (h.delZone z).zone z = none := by
  simp [Heap.delZone, Heap.zone]

theorem Heap.zone_delZone_ne (h : Heap) (z : ZoneId) (z' : ZoneId)
    (hne : z' ≠ z) : (h.delZone z).zone z' = h.zone z' := by
  simp [Heap.delZone, Heap.zone, hne]

theorem Heap.cont_delCont_self (h : Heap) (c : ContentsId) :
    (h.delCont c).cont c = none := by
  simp [Heap.delCont, Heap.cont]

theorem Heap.cont_delCont_ne (h : Heap) (c : ContentsId) (c' : ContentsId)
    (hne : c' ≠ c) : (h.delCont c).cont c' = h.cont c' := by
  simp [Heap.delCont, Heap.cont, hne]

/-- Destroying a zone always removes it from the heap. -/
theorem zone_deep_free_zone_self (h : Heap) (z : ZoneId) :
    (zone_deep_free h z).zone z = none := by
  unfold zone_deep_free
  cases hz : h.zone z with
  | none => exact hz
  | some zo =>
    cases hc : zo.contents <;>
      simp [hc, Heap.zone_delCont, Heap.zone_delZone_self]

/-- Unrolling one step of the loader loop. -/
theorem zone_loader_run_cons (env : Env) (ns_db : ZoneDB) (c : ConfZone)
    (cs : List ConfZone) (h : Heap) (db : ZoneDB) :
    zone_loader_run env ns_db (c :: cs) h db =
      zone_loader_run env ns_db cs (zone_loader_step env ns_db c h db).1
        (zone_loader_step env ns_db c h db).2 := rfl

/-- When update_zone fails for a popped configuration, the loader step
inserts nothing: the new database is unchanged. -/
theorem zone_loader_step_update_fail (env : Env) (ns_db : ZoneDB)
    (conf : ConfZone) (h : Heap) (db : ZoneDB)
    (hf : (update_zone env (knot_zonedb_find h ns_db conf.name) conf h).res ≠ KNOT_EOK) :
    zone_loader_step env ns_db conf h db =
      ((update_zone env (knot_zonedb_find h ns_db conf.name) conf h).heap, db) := by
  simp [zone_loader_step, hf]

/-- Characterization of preserve_zone on a well-formed heap in which the
old zone owns contents: the fresh shell is h.nextZone, it references the
same contents, the contents' back-reference moves to the shell, and
every other zone and contents entry is untouched. -/
theorem preserve_zone_spec (conf : ConfZone) (oid : ZoneId) (h : Heap)
    (oObj : ZoneObj) (c : ContentsId) (co : ZoneContentsObj)
    (ho : h.zone oid = some oObj) (hc : oObj.contents = some c)
    (hco : h.cont c = some co) :
    (preserve_zone conf oid h).1 = some h.nextZone ∧
    (preserve_zone conf oid h).2.zone h.nextZone =
      some { name := conf.name, contents := some c,
             zonefile_mtime := 0, zonefile_serial := 0 } ∧
    (preserve_zone conf oid h).2.cont c = some { co with zone := some h.nextZone } ∧
    (∀ z', ¬ z' = h.nextZone → (preserve_zone conf oid h).2.zone z' = h.zone z') ∧
    (∀ c', ¬ c' = c → (preserve_zone conf oid h).2.cont c' = h.cont c') := by
  have ho' : h.zones oid = some oObj := ho
  have hco' : h.conts c = some co := hco
  refine ⟨?_, ?_, ?_, ?_, ?_⟩ <;>
    simp [preserve_zone, zone_new, Heap.allocZone, Heap.setZone, Heap.setCont,
      Heap.zone, Heap.cont, ho', hc, hco']
  · intro z' hz'
    simp [hz']
  · intro c' hc'
    simp [hc']

/-- Characterization of a successful load_zone: the fresh zone is
h.nextZone over fresh contents h.nextCont, recording the stat's mtime
and the parsed serial; every other entry is untouched. -/
theorem load_zone_success_spec (env : Env) (conf : ConfZone) (h : Heap)
    (pz : ParsedZone) (st : StatInfo)
    (hzl : env.zload conf = some pz) (hfs : env.fs conf.file = some st)
    (hname : pz.name = conf.name) :
    (load_zone env conf h).1 = some h.nextZone ∧
    (load_zone env conf h).2.zone h.nextZone =
      some { name := pz.name, contents := some h.nextCont,
             zonefile_mtime := st.st_mtime, zonefile_serial := pz.serial } ∧
    (load_zone env conf h).2.cont h.nextCont =
      some { zone := some h.nextZone, serial := pz.serial,
             nsec3_res := pz.nsec3_res, is_signed := pz.is_signed } ∧
    (∀ z', ¬ z' = h.nextZone → (load_zone env conf h).2.zone z' = h.zone z') ∧
    (∀ c', ¬ c' = h.nextCont → (load_zone env conf h).2.cont c' = h.cont c') := by
  refine ⟨?_, ?_, ?_, ?_, ?_⟩ <;>
    simp [load_zone, hzl, hfs, hname, Heap.setZone, Heap.zone, Heap.cont]
  · intro z' hz'
    simp [hz']
  · intro c' hc'
    simp [hc']

/-- On the Current path, update_zone is the pipeline run on the shell
allocated by preserve_zone. -/
theorem update_zone_current_eq (env : Env) (conf : ConfZone) (h : Heap)
    (oid : ZoneId) (oObj : ZoneObj) (st : StatInfo) (c : ContentsId)
    (co : ZoneContentsObj)
    (hfs : env.fs conf.file = some st) (ho : h.zone oid = some oObj)
    (hmt : oObj.zonefile_mtime = st.st_mtime) (hc : oObj.contents = some c)
    (hco : h.cont c = some co) :
    update_zone env (some oid) conf h =
      update_zone_pipeline env (some oid) conf h.nextZone
        (preserve_zone conf oid h).2 := by
  have hcz : create_zone env (some oid) conf h =
      (.ZONE_STATUS_FOUND_CURRENT, (preserve_zone conf oid h).1,
        (preserve_zone conf oid h).2) := by
    simp [create_zone, zone_file_status, ho, hfs, hmt]
  have hp1 := (preserve_zone_spec conf oid h oObj c co ho hc hco).1
  rw [update_zone, hcz, hp1]

/-- On the New and Updated paths (a parseable file whose apex matches),
update_zone is the pipeline run on the shell allocated by load_zone. -/
theorem update_zone_load_eq (env : Env) (conf : ConfZone) (h : Heap)
    (old_id : Option ZoneId) (pz : ParsedZone) (st : StatInfo)
    (hzl : env.zload conf = some pz) (hfs : env.fs conf.file = some st)
    (hname : pz.name = conf.name)
    (hstatus : zone_file_status env (old_id.bind h.zone) conf.file =
        .ZONE_STATUS_FOUND_NEW ∨
      zone_file_status env (old_id.bind h.zone) conf.file =
        .ZONE_STATUS_FOUND_UPDATED) :
    update_zone env old_id conf h =
      update_zone_pipeline env old_id conf h.nextZone (load_zone env conf h).2 := by
  have hl1 := (load_zone_success_spec env conf h pz st hzl hfs hname).1
  have hcz : create_zone env old_id conf h =
      (zone_file_status env (old_id.bind h.zone) conf.file,
        (load_zone env conf h).1, (load_zone env conf h).2) := by
    rcases hstatus with hs | hs <;> simp [create_zone, hs]
  rw [update_zone, hcz, hl1]

/-- Full case analysis of the pipeline tail on a reused-content shell
(new_content is false): the event trace, the result, the published zone
and the rollback heap in each of the four branches — journal abort, sign
abort, NSEC3 abort (which happens only after the sync timer was already
scheduled), and success (where a low EDNS payload on a signed zone adds
only a warning event). -/
theorem update_zone_pipeline_reuse_cases (env : Env) (conf : ConfZone)
    (oid zid : ZoneId) (h1 : Heap) (c : ContentsId) (co1 : ZoneContentsObj)
    (oObj1 nObj : ZoneObj)
    (hzo : h1.zone oid = some oObj1) (hoc : oObj1.contents = some c)
    (hzn : h1.zone zid = some nObj) (hnc : nObj.contents = some c)
    (hcc : h1.cont c = some co1) (hne : ¬ oid = zid) :
    ((¬ env.journal conf.name = KNOT_EOK ∧ ¬ env.journal conf.name = KNOT_ERANGE ∧
        ¬ env.journal conf.name = KNOT_ENOENT) →
      (update_zone_pipeline env (some oid) conf zid h1).res = env.journal conf.name ∧
      (update_zone_pipeline env (some oid) conf zid h1).dst = none ∧
      (update_zone_pipeline env (some oid) conf zid h1).trace =
        [.journalApply (env.journal conf.name)] ∧
      (update_zone_pipeline env (some oid) conf zid h1).heap.zone oid = some oObj1 ∧
      (update_zone_pipeline env (some oid) conf zid h1).heap.cont c =
        some { co1 with zone := some oid } ∧
      (update_zone_pipeline env (some oid) conf zid h1).heap.zone zid = none) ∧
    (¬ (¬ env.journal conf.name = KNOT_EOK ∧ ¬ env.journal conf.name = KNOT_ERANGE ∧
        ¬ env.journal conf.name = KNOT_ENOENT) →
      ¬ env.sign conf.name false = KNOT_EOK →
      (update_zone_pipeline env (some oid) conf zid h1).res = env.sign conf.name false ∧
      (update_zone_pipeline env (some oid) conf zid h1).dst = none ∧
      (update_zone_pipeline env (some oid) conf zid h1).trace =
        [.journalApply (env.journal conf.name),
         .diffAndSign false (env.sign conf.name false)] ∧
      (update_zone_pipeline env (some oid) conf zid h1).heap.zone oid = some oObj1 ∧
      (update_zone_pipeline env (some oid) conf zid h1).heap.cont c =
        some { co1 with zone := some oid } ∧
      (update_zone_pipeline env (some oid) conf zid h1).heap.zone zid = none) ∧
    (¬ (¬ env.journal conf.name = KNOT_EOK ∧ ¬ env.journal conf.name = KNOT_ERANGE ∧
        ¬ env.journal conf.name = KNOT_ENOENT) →
      env.sign conf.name false = KNOT_EOK →
      ¬ co1.nsec3_res = KNOT_EOK →
      (update_zone_pipeline env (some oid) conf zid h1).res = co1.nsec3_res ∧
      (update_zone_pipeline env (some oid) conf zid h1).dst = none ∧
      (update_zone_pipeline env (some oid) conf zid h1).trace =
        [.journalApply (env.journal conf.name), .diffAndSign false KNOT_EOK,
         .scheduleSync conf.dbsync_timeout, .nsec3Check co1.nsec3_res] ∧
      (update_zone_pipeline env (some oid) conf zid h1).heap.zone oid = some oObj1 ∧
      (update_zone_pipeline env (some oid) conf zid h1).heap.cont c =
        some { co1 with zone := some oid } ∧
      (update_zone_pipeline env (some oid) conf zid h1).heap.zone zid = none) ∧
    (¬ (¬ env.journal conf.name = KNOT_EOK ∧ ¬ env.journal conf.name = KNOT_ERANGE ∧
        ¬ env.journal conf.name = KNOT_ENOENT) →
      env.sign conf.name false = KNOT_EOK →
      co1.nsec3_res = KNOT_EOK →
      (update_zone_pipeline env (some oid) conf zid h1).res = KNOT_EOK ∧
      (update_zone_pipeline env (some oid) conf zid h1).dst = some zid ∧
      (update_zone_pipeline env (some oid) conf zid h1).heap = h1 ∧
      (update_zone_pipeline env (some oid) conf zid h1).trace =
        [.journalApply (env.journal conf.name), .diffAndSign false KNOT_EOK,
         .scheduleSync conf.dbsync_timeout, .nsec3Check KNOT_EOK] ++
        (if co1.is_signed ∧ env.edns_payload < EDNS_MIN_DNSSEC_PAYLOAD then
          [.ednsWarn] else [])) := by
  have hnewc : update_zone_new_content (some oid) h1 zid = false := by
    simp [update_zone_new_content, hzo, hzn, hoc, hnc]
  refine ⟨fun hb1 => ?_, fun hb1 hb2 => ?_, fun hb1 hb2 hb3 => ?_,
    fun hb1 hb2 hb3 => ?_⟩
  · refine ⟨?_, ?_, ?_, ?_, ?_, ?_⟩ <;>
      simp [update_zone_pipeline, hnewc, hb1, hb1.1, update_zone_epilogue,
        hzo, hoc, hcc, hzn, hnc, zone_deep_free, Heap.zone_setCont, Heap.cont_setZone,
        Heap.zone_setZone_self, Heap.zone_setZone_ne, Heap.cont_setCont_self,
        Heap.zone_delZone_self, Heap.zone_delZone_ne, Heap.cont_delZone,
        Heap.zone_delCont, hne]
  · refine ⟨?_, ?_, ?_, ?_, ?_, ?_⟩ <;>
      simp [update_zone_pipeline, hnewc, hb1, hb2, update_zone_epilogue,
        hzo, hoc, hcc, hzn, hnc, zone_deep_free, Heap.zone_setCont, Heap.cont_setZone,
        Heap.zone_setZone_self, Heap.zone_setZone_ne, Heap.cont_setCont_self,
        Heap.zone_delZone_self, Heap.zone_delZone_ne, Heap.cont_delZone,
        Heap.zone_delCont, hne]
  · refine ⟨?_, ?_, ?_, ?_, ?_, ?_⟩ <;>
      simp [update_zone_pipeline, hnewc, hb1, hb2, hb3, update_zone_epilogue,
        hzo, hoc, hcc, hzn, hnc, zone_deep_free, Heap.zone_setCont, Heap.cont_setZone,
        Heap.zone_setZone_self, Heap.zone_setZone_ne, Heap.cont_setCont_self,
        Heap.zone_delZone_self, Heap.zone_delZone_ne, Heap.cont_delZone,
        Heap.zone_delCont, hne]
  · have htol : env.journal conf.name = KNOT_EOK ∨ env.journal conf.name = KNOT_ERANGE ∨
        env.journal conf.name = KNOT_ENOENT := by tauto
    refine ⟨?_, ?_, ?_, ?_⟩ <;>
      rcases htol with h | h | h <;>
        simp [update_zone_pipeline, hnewc, h, hb2, hb3, hzn, hnc, hcc,
          update_zone_epilogue, KNOT_EOK, KNOT_ERANGE, KNOT_ENOENT] <;>
        split <;> rfl

/-- Case analysis of the pipeline tail on a freshly built shell
(new_content is true): on any abort the shell and its contents are
discarded and nothing else in the heap changes; on success the heap is
untouched and the shell is published. -/
theorem zone_deep_free_spec (h : Heap) (z : ZoneId) (zo : ZoneObj)
    (c : ContentsId) (hz : h.zone z = some zo) (hc : zo.contents = some c) :
    zone_deep_free h z = (h.delZone z).delCont c := by
  simp [zone_deep_free, hz, hc]

theorem update_zone_pipeline_fresh_abort (env : Env) (conf : ConfZone)
    (old_id : Option ZoneId) (zid : ZoneId) (h1 : Heap) (cid : ContentsId)
    (co1 : ZoneContentsObj) (nObj : ZoneObj)
    (hzn : h1.zone zid = some nObj) (hnc : nObj.contents = some cid)
    (hcc : h1.cont cid = some co1)
    (hdiff : old_id = none ∨ ∃ oid oObj1, old_id = some oid ∧
      h1.zone oid = some oObj1 ∧ ¬ oObj1.contents = some cid)
    (hfail : ¬ (update_zone_pipeline env old_id conf zid h1).res = KNOT_EOK) :
    (update_zone_pipeline env old_id conf zid h1).dst = none ∧
    (update_zone_pipeline env old_id conf zid h1).heap = zone_deep_free h1 zid := by
  have hnewc : update_zone_new_content old_id h1 zid = true := by
    rcases hdiff with hn | ⟨oid, oObj1, heq, hzo, hocne⟩
    · subst hn
      simp [update_zone_new_content]
    · subst heq
      simp [update_zone_new_content, hzo, hzn, hnc, hocne]
  by_cases hb1 : (¬ env.journal conf.name = KNOT_EOK ∧
      ¬ env.journal conf.name = KNOT_ERANGE ∧ ¬ env.journal conf.name = KNOT_ENOENT)
  · refine ⟨?_, ?_⟩ <;>
      simp [update_zone_pipeline, hnewc, hb1, hb1.1, update_zone_epilogue]
  · by_cases hb2 : env.sign conf.name true = KNOT_EOK
    · by_cases hb3 : co1.nsec3_res = KNOT_EOK
      · exfalso
        apply hfail
        have htol : env.journal conf.name = KNOT_EOK ∨
            env.journal conf.name = KNOT_ERANGE ∨
            env.journal conf.name = KNOT_ENOENT := by tauto
        rcases htol with h | h | h <;>
          simp [update_zone_pipeline, hnewc, h, hb2, hb3, hzn, hnc, hcc,
            update_zone_epilogue, KNOT_EOK, KNOT_ERANGE, KNOT_ENOENT]
      · refine ⟨?_, ?_⟩ <;>
          simp [update_zone_pipeline, hnewc, hb1, hb2, hb3, hzn, hnc, hcc,
            update_zone_epilogue]
    · refine ⟨?_, ?_⟩ <;>
        simp [update_zone_pipeline, hnewc, hb1, hb2, update_zone_epilogue]

/-- C6: for every previous-zone value (possibly none) and source file
path, zone_file_status returns exactly NOT_FOUND when the stat of the
file fails, else FOUND_NEW when there is no previous zone, else
FOUND_CURRENT when the previous zone's recorded modification time equals
the file's current one, else FOUND_UPDATED; it is a pure function of the
filesystem oracle and the previous zone, with no side effects. -/
theorem C6_zone_file_status_characterization (env : Env) (oz : Option ZoneObj)
    (fn : FileAtom) :
    (zone_file_status env oz fn = .ZONE_STATUS_NOT_FOUND ↔ env.fs fn = none) ∧
    (zone_file_status env oz fn = .ZONE_STATUS_FOUND_NEW ↔
      (env.fs fn).isSome ∧ oz = none) ∧
    (zone_file_status env oz fn = .ZONE_STATUS_FOUND_CURRENT ↔
      ∃ st z, env.fs fn = some st ∧ oz = some z ∧
        z.zonefile_mtime = st.st_mtime) ∧
    (zone_file_status env oz fn = .ZONE_STATUS_FOUND_UPDATED ↔
      ∃ st z, env.fs fn = some st ∧ oz = some z ∧
        ¬ z.zonefile_mtime = st.st_mtime) := by
  cases hfs : env.fs fn with
  | none => cases oz <;> simp [zone_file_status, hfs]
  | some st =>
    cases oz with
    | none => simp [zone_file_status, hfs]
    | some z =>
      by_cases hm : z.zonefile_mtime = st.st_mtime <;>
        simp [zone_file_status, hfs, hm]

/-- Witness for C6 at concrete inputs: a present file with matching
recorded mtime classifies as FOUND_CURRENT. -/
theorem C6_witness :
    zone_file_status envS (some zoneAold) 1 = .ZONE_STATUS_FOUND_CURRENT :=
  ((C6_zone_file_status_characterization envS (some zoneAold) 1).2.2.1).mpr
    ⟨{ st_mtime := 5 }, zoneAold, rfl, rfl, rfl⟩

/-- C10: the reload entry point returns KNOT_EINVAL on a NULL conf or
nameserver, and KNOT_ENOENT when the nameserver has no live zone
database; in all three cases it returns before building anything: the
nameserver (hence its live-database reference), the caller's db_old
out-parameter and the heap are untouched. -/
theorem C10_entry_guards (env : Env) (h : Heap) :
    (∀ ns, zones_update_db_from_config env none ns h =
      { res := KNOT_EINVAL, ns := ns, db_old_out := none, heap := h }) ∧
    (∀ cf, zones_update_db_from_config env (some cf) none h =
      { res := KNOT_EINVAL, ns := none, db_old_out := none, heap := h }) ∧
    (∀ cf n, n.zone_db = none →
      zones_update_db_from_config env (some cf) (some n) h =
        { res := KNOT_ENOENT, ns := some n, db_old_out := none, heap := h }) := by
  refine ⟨fun ns => rfl, fun cf => rfl, fun cf n hz => ?_⟩
  simp [zones_update_db_from_config, hz]

/-- Witness for C10: a nameserver with no live database at a concrete
input. -/
theorem C10_witness :
    zones_update_db_from_config env5 (some conf9) (some { zone_db := none })
        heapEmpty =
      { res := KNOT_ENOENT, ns := some { zone_db := none },
        db_old_out := none, heap := heapEmpty } :=
  (C10_entry_guards env5 heapEmpty).2.2 conf9 { zone_db := none } rfl

/-- C7: on the New/Updated path, when the parser succeeds, an apex name
differing from the configured name is a hard failure — no zone is
produced and the freshly parsed shell and contents are discarded from
the heap; when the names match, the zone is produced with the file's
current modification time and the parsed SOA serial recorded on it. -/
theorem C7_load_zone_origin_check (env : Env) (conf : ConfZone) (h : Heap)
    (pz : ParsedZone) (st : StatInfo)
    (hp : env.zload conf = some pz) (hs : env.fs conf.file = some st) :
    (¬ pz.name = conf.name →
      (load_zone env conf h).1 = none ∧
      (load_zone env conf h).2.zone h.nextZone = none ∧
      (load_zone env conf h).2.cont h.nextCont = none) ∧
    (pz.name = conf.name →
      (load_zone env conf h).1 = some h.nextZone ∧
      (load_zone env conf h).2.zone h.nextZone =
        some { name := pz.name, contents := some h.nextCont,
               zonefile_mtime := st.st_mtime, zonefile_serial := pz.serial } ∧
      (load_zone env conf h).2.cont h.nextCont =
        some { zone := some h.nextZone, serial := pz.serial,
               nsec3_res := pz.nsec3_res, is_signed := pz.is_signed }) := by
  constructor
  · intro hname
    simp [load_zone, hp, hs, hname, zone_deep_free, Heap.zone, Heap.cont,
      Heap.delZone, Heap.delCont]
  · intro hname
    simp [load_zone, hp, hs, hname, Heap.setZone, Heap.zone, Heap.cont]

/-- Witness for C7 at concrete inputs: a mismatching apex (file 1 parses
to atom 7, configured name 1) is rejected and discarded; the same file
parsing to the configured apex is accepted with mtime 5 and serial 1
recorded. -/
theorem C7_witness :
    ((load_zone envM confA heapEmpty).1 = none ∧
      (load_zone envM confA heapEmpty).2.zone 0 = none ∧
      (load_zone envM confA heapEmpty).2.cont 0 = none) ∧
    ((load_zone env3 confA heapEmpty).1 = some 0 ∧
      (load_zone env3 confA heapEmpty).2.zone 0 =
        some { name := 1, contents := some 0,
               zonefile_mtime := 5, zonefile_serial := 1 } ∧
      (load_zone env3 confA heapEmpty).2.cont 0 =
        some { zone := some 0, serial := 1,
               nsec3_res := KNOT_EOK, is_signed := false }) := by
  constructor
  · exact (C7_load_zone_origin_check envM confA heapEmpty
      { name := 7, serial := 1, nsec3_res := KNOT_EOK, is_signed := false }
      { st_mtime := 5 } rfl rfl).1 (by decide)
  · exact (C7_load_zone_origin_check env3 confA heapEmpty
      { name := 1, serial := 1, nsec3_res := KNOT_EOK, is_signed := false }
      { st_mtime := 5 } rfl rfl).2 rfl

/-- C8: on the NotFound path a zone is produced exactly when the
configuration declares at least one transfer-in source, and then it is
an empty placeholder shell; with no transfer-in source the build fails
(update_zone reports KNOT_EZONENOENT with the heap untouched) and the
loader step leaves the new database without the zone. -/
theorem C8_bootstrap_characterization :
    (∀ (conf : ConfZone) (h : Heap),
      ((bootstrap_zone conf h).1.isSome ↔ ¬ conf.xfr_in = []) ∧
      (¬ conf.xfr_in = [] →
        (bootstrap_zone conf h).1 = some h.nextZone ∧
        (bootstrap_zone conf h).2.zone h.nextZone =
          some { name := conf.name, contents := none,
                 zonefile_mtime := 0, zonefile_serial := 0 }) ∧
      (conf.xfr_in = [] → bootstrap_zone conf h = (none, h))) ∧
    (∀ (env : Env) (old_id : Option ZoneId) (conf : ConfZone) (h : Heap),
      env.fs conf.file = none → conf.xfr_in = [] →
      update_zone env old_id conf h =
        { res := KNOT_EZONENOENT, dst := none, heap := h, trace := [] }) ∧
    (∀ (env : Env) (ns_db : ZoneDB) (conf : ConfZone) (h : Heap) (db : ZoneDB),
      env.fs conf.file = none → conf.xfr_in = [] →
      zone_loader_step env ns_db conf h db = (h, db)) := by
  refine ⟨fun conf h => ⟨?_, ?_, ?_⟩, ?_, ?_⟩
  · by_cases hx : conf.xfr_in = [] <;>
      simp [bootstrap_zone, zone_new, Heap.allocZone, List.isEmpty_iff, hx]
  · intro hx
    simp [bootstrap_zone, zone_new, Heap.allocZone, Heap.zone,
      List.isEmpty_iff, hx]
  · intro hx
    simp [bootstrap_zone, List.isEmpty_iff, hx]
  · intro env old_id conf h hfs hx
    cases old_id <;>
      simp [update_zone, create_zone, zone_file_status, hfs, bootstrap_zone,
        List.isEmpty_iff, hx]
  · intro env ns_db conf h db hfs hx
    have hu : update_zone env (knot_zonedb_find h ns_db conf.name) conf h =
        { res := KNOT_EZONENOENT, dst := none, heap := h, trace := [] } := by
      cases hov : knot_zonedb_find h ns_db conf.name <;>
        simp [update_zone, create_zone, zone_file_status, hfs, bootstrap_zone,
          List.isEmpty_iff, hx]
    simp [zone_loader_step, hu, KNOT_EZONENOENT, KNOT_EOK]

/-- Witness for C8: bootstrapping zone C (one transfer-in source)
produces the empty placeholder shell, while zone B (file absent under
env5, no transfer-in source) is dropped by the loader step. -/
theorem C8_witness :
    ((bootstrap_zone confC heapEmpty).1 = some 0 ∧
      (bootstrap_zone confC heapEmpty).2.zone 0 =
        some { name := 3, contents := none,
               zonefile_mtime := 0, zonefile_serial := 0 }) ∧
    zone_loader_step env5 [] confB heapEmpty [] = (heapEmpty, []) := by
  constructor
  · exact (C8_bootstrap_characterization.1 confC heapEmpty).2.1 (by decide)
  · exact C8_bootstrap_characterization.2.2 env5 [] confB heapEmpty [] rfl rfl

/-- Counterexample to C1 as stated: evaluate the Current path
(preserve_zone) at a live zone 0 owning contents 0.  After the call the
old zone 0 still holds its contents reference (zoneAold is returned
unchanged, contents = some 0): nothing cleared it.  The new zone 1 holds
the same reference at the same instant, so two live zones reference the
same ZoneContents; the only recorded transfer is the contents'
back-reference, now naming zone 1.  The final conjuncts run the whole
reload cycle on this zone: even at the end — the point at which the
caller receives the old database for destruction — the old zone 0 still
sits in the old database with its contents reference intact, shared with
the live zone 1. -/
theorem C1_counterexample :
    (preserve_zone confA 0 heap0).1 = some 1 ∧
    (preserve_zone confA 0 heap0).2.zone 0 = some zoneAold ∧
    zoneAold.contents = some 0 ∧
    (preserve_zone confA 0 heap0).2.zone 1 =
      some { name := 1, contents := some 0,
             zonefile_mtime := 0, zonefile_serial := 0 } ∧
    (preserve_zone confA 0 heap0).2.cont 0 =
      some { zone := some 1, serial := 1,
             nsec3_res := KNOT_EOK, is_signed := false } ∧
    (zones_update_db_from_config envS (some { zones := [confA] })
      (some { zone_db := some [0] }) heap0).heap.zone 0 = some zoneAold ∧
    ((zones_update_db_from_config envS (some { zones := [confA] })
      (some { zone_db := some [0] }) heap0).heap.zone 1).map
      (fun z => z.contents) = some (some 0) ∧
    (zones_update_db_from_config envS (some { zones := [confA] })
      (some { zone_db := some [0] }) heap0).db_old_out = some [0] := by
  decide

/-- C1 as amended: on the Current path, ownership transfer is recorded
solely by redirecting the ZoneContents' owner back-reference to the new
shell; the old zone's own contents reference is left in place.  For any
heap in which the old zone owns contents, preserve_zone returns the
fresh shell referencing the same contents, leaves the old zone object
untouched, and points the contents' back-reference at the new shell. -/
theorem C1_amended_back_reference_transfer (conf : ConfZone) (oid : ZoneId)
    (h : Heap) (oObj : ZoneObj) (c : ContentsId) (co : ZoneContentsObj)
    (ho : h.zone oid = some oObj) (hc : oObj.contents = some c)
    (hco : h.cont c = some co) (hlt : oid < h.nextZone) :
    (preserve_zone conf oid h).1 = some h.nextZone ∧
    (preserve_zone conf oid h).2.zone oid = some oObj ∧
    (preserve_zone conf oid h).2.zone h.nextZone =
      some { name := conf.name, contents := some c,
             zonefile_mtime := 0, zonefile_serial := 0 } ∧
    (preserve_zone conf oid h).2.cont c = some { co with zone := some h.nextZone } := by
  have hne : oid ≠ h.nextZone := Nat.ne_of_lt hlt
  have ho' : h.zones oid = some oObj := ho
  have hco' : h.conts c = some co := hco
  simp [preserve_zone, zone_new, Heap.allocZone, Heap.setZone, Heap.setCont,
    Heap.zone, Heap.cont, ho', hc, hco', hne]

/-- Witness for the amended C1 at the concrete live zone A. -/
theorem C1_amended_witness :
    (preserve_zone confB 0 heap0).1 = some 1 ∧
    (preserve_zone confB 0 heap0).2.zone 0 = some zoneAold ∧
    (preserve_zone confB 0 heap0).2.zone 1 =
      some { name := 2, contents := some 0,
             zonefile_mtime := 0, zonefile_serial := 0 } ∧
    (preserve_zone confB 0 heap0).2.cont 0 =
      some { contA with zone := some 1 } :=
  C1_amended_back_reference_transfer confB 0 heap0 zoneAold 0 contA
    rfl rfl rfl (by decide)

/-- Evaluation of the full reload at the A/B/C scenario (A preserved,
B reloaded, C bootstrapped).  The reload succeeds and the new database
is [4, 3, 2] (C, B, A).  Contrary to C2, after remove_zones the old
database still contains zones 0 (A) and 1 (B): remove_zones deletes an
old entry only when the old and new zone_t pointers are identical, and
every build path allocates a fresh shell, so nothing is ever removed.
Meanwhile the preserved zone A's contents (identity 0) are referenced
both by the retired zone 0 and by the live zone 2. -/
theorem C2_remove_zones_failing :
    (zones_update_db_from_config envS (some confS) (some nsS) heapS).res =
      KNOT_EOK ∧
    (zones_update_db_from_config envS (some confS) (some nsS) heapS).ns =
      some { zone_db := some [4, 3, 2] } ∧
    (zones_update_db_from_config envS (some confS) (some nsS) heapS).db_old_out =
      some [0, 1] ∧
    (zones_update_db_from_config envS (some confS) (some nsS) heapS).heap.zone 0 =
      some zoneAold ∧
    ((zones_update_db_from_config envS (some confS) (some nsS) heapS).heap.zone 2).map
      (fun z => z.contents) = some (some 0) := by
  decide

/-- Counterexample to C3 as stated: three configurations, two sharing
name 1.  The second insertion collides, yet the reload completes with
KNOT_EOK, the database holds the first zone of name 1 (id 0) and the
zone of name 2 (id 2) — processed after the collision — and the
colliding shell (id 1) and its contents were freed.  The collision was
the loss of one zone, not a fatal abort of the reload. -/
theorem C3_counterexample :
    (zones_update_db_from_config env3 (some { zones := [confA, confA2, confB] })
      (some { zone_db := some [] }) heapEmpty).res = KNOT_EOK ∧
    (zones_update_db_from_config env3 (some { zones := [confA, confA2, confB] })
      (some { zone_db := some [] }) heapEmpty).ns =
      some { zone_db := some [2, 0] } ∧
    (zones_update_db_from_config env3 (some { zones := [confA, confA2, confB] })
      (some { zone_db := some [] }) heapEmpty).heap.zone 1 = none ∧
    (zones_update_db_from_config env3 (some { zones := [confA, confA2, confB] })
      (some { zone_db := some [] }) heapEmpty).heap.cont 1 = none := by
  decide

/-- C3 as amended: a duplicate-name collision at insertion causes that
zone alone to be dropped — the new database is unchanged, the shell is
deep-freed — and the loader loop simply continues with the remaining
configurations. -/
theorem C3_amended_collision_drops_zone (env : Env) (ns_db : ZoneDB)
    (conf : ConfZone) (rest : List ConfZone) (h : Heap) (db : ZoneDB) (z : ZoneId)
    (hok : (update_zone env (knot_zonedb_find h ns_db conf.name) conf h).res =
      KNOT_EOK)
    (hdst : (update_zone env (knot_zonedb_find h ns_db conf.name) conf h).dst =
      some z)
    (hcol : ¬ (knot_zonedb_insert
      (update_zone env (knot_zonedb_find h ns_db conf.name) conf h).heap db z).1 =
      KNOT_EOK) :
    (zone_loader_step env ns_db conf h db).2 = db ∧
    (zone_loader_step env ns_db conf h db).1.zone z = none ∧
    zone_loader_run env ns_db (conf :: rest) h db =
      zone_loader_run env ns_db rest (zone_loader_step env ns_db conf h db).1 db := by
  have hstep : (zone_loader_step env ns_db conf h db).2 = db := by
    simp [zone_loader_step, hok, hdst, hcol]
  refine ⟨hstep, ?_, ?_⟩
  · simp only [zone_loader_step, hok, hdst, hcol]
    simp [zone_deep_free_zone_self]
  · rw [zone_loader_run_cons, hstep]

/-- Witness for the amended C3: with db_new already holding zone 0 (name
1), loading configuration confA2 (also name 1) succeeds but collides on
insertion; the database is unchanged, the shell (id 1) is gone, and the
loop continues. -/
theorem C3_amended_witness :
    (zone_loader_step env3 [] confA2 heap0 [0]).2 = [0] ∧
    (zone_loader_step env3 [] confA2 heap0 [0]).1.zone 1 = none ∧
    zone_loader_run env3 [] (confA2 :: [confB]) heap0 [0] =
      zone_loader_run env3 [] [confB] (zone_loader_step env3 [] confA2 heap0 [0]).1
        [0] :=
  C3_amended_collision_drops_zone env3 [] confA2 [confB] heap0 [0] 1
    (by decide) (by decide) (by decide)

/-- Evaluation of two consecutive reload cycles of zone A with the
file's modification time fixed at 5.  The zone was live with recorded
mtime 5, so the first cycle classifies FOUND_CURRENT and preserves the
contents (identity 0 moves onto shell 1).  Contrary to C9, the second
cycle classifies FOUND_UPDATED — preserve_zone never copied the recorded
mtime onto the new shell, which carries the zeroed default — and the
zone is reparsed: the second generation's zone 2 owns fresh contents
(identity 1), not the original identity 0. -/
theorem C9_two_cycle_failing :
    zone_file_status env9 (heap9.zone 0) 1 = .ZONE_STATUS_FOUND_CURRENT ∧
    (zones_update_db_from_config env9 (some conf9) (some ns9) heap9).ns =
      some { zone_db := some [1] } ∧
    (((zones_update_db_from_config env9 (some conf9) (some ns9) heap9).heap.zone 1).bind
      (fun z => z.contents)) = some 0 ∧
    zone_file_status env9
      ((zones_update_db_from_config env9 (some conf9) (some ns9) heap9).heap.zone 1)
      1 = .ZONE_STATUS_FOUND_UPDATED ∧
    (zones_update_db_from_config env9 (some conf9)
      (zones_update_db_from_config env9 (some conf9) (some ns9) heap9).ns
      (zones_update_db_from_config env9 (some conf9) (some ns9) heap9).heap).ns =
      some { zone_db := some [2] } ∧
    (((zones_update_db_from_config env9 (some conf9)
      (zones_update_db_from_config env9 (some conf9) (some ns9) heap9).ns
      (zones_update_db_from_config env9 (some conf9) (some ns9) heap9).heap).heap.zone 2).bind
      (fun z => z.contents)) = some 1 := by
  decide

/-- C4: rollback on any pipeline abort.  First conjunct (reused content,
the Current path): whenever the pipeline aborts, no zone is produced,
the original zone object is untouched (still holding its contents
reference), the shared contents survive with their back-reference
restored to the original zone, and the new shell is gone from the heap.
Second and third conjuncts (freshly parsed content, the New and Updated
paths): on abort no zone is produced, the shell and its freshly parsed
contents are both discarded, and (Updated) the old zone is untouched.
Fourth conjunct: a failed update inserts nothing into the new database
and the loader loop continues with the remaining configurations. -/
theorem C4_rollback_and_containment :
    (∀ (env : Env) (conf : ConfZone) (h : Heap) (oid : ZoneId) (oObj : ZoneObj)
      (st : StatInfo) (c : ContentsId) (co : ZoneContentsObj),
      env.fs conf.file = some st → h.zone oid = some oObj →
      oObj.zonefile_mtime = st.st_mtime → oObj.contents = some c →
      h.cont c = some co → oid < h.nextZone →
      ¬ (update_zone env (some oid) conf h).res = KNOT_EOK →
      (update_zone env (some oid) conf h).dst = none ∧
      (update_zone env (some oid) conf h).heap.zone oid = some oObj ∧
      (update_zone env (some oid) conf h).heap.cont c =
        some { co with zone := some oid } ∧
      (update_zone env (some oid) conf h).heap.zone h.nextZone = none) ∧
    (∀ (env : Env) (conf : ConfZone) (h : Heap) (pz : ParsedZone) (st : StatInfo),
      env.zload conf = some pz → env.fs conf.file = some st →
      pz.name = conf.name →
      ¬ (update_zone env none conf h).res = KNOT_EOK →
      (update_zone env none conf h).dst = none ∧
      (update_zone env none conf h).heap.zone h.nextZone = none ∧
      (update_zone env none conf h).heap.cont h.nextCont = none) ∧
    (∀ (env : Env) (conf : ConfZone) (h : Heap) (oid : ZoneId) (oObj : ZoneObj)
      (pz : ParsedZone) (st : StatInfo),
      h.zone oid = some oObj → env.fs conf.file = some st →
      ¬ oObj.zonefile_mtime = st.st_mtime →
      env.zload conf = some pz → pz.name = conf.name →
      oid < h.nextZone → ¬ oObj.contents = some h.nextCont →
      ¬ (update_zone env (some oid) conf h).res = KNOT_EOK →
      (update_zone env (some oid) conf h).dst = none ∧
      (update_zone env (some oid) conf h).heap.zone oid = some oObj ∧
      (update_zone env (some oid) conf h).heap.zone h.nextZone = none ∧
      (update_zone env (some oid) conf h).heap.cont h.nextCont = none) ∧
    (∀ (env : Env) (ns_db : ZoneDB) (conf : ConfZone) (h : Heap) (db : ZoneDB)
      (rest : List ConfZone),
      ¬ (update_zone env (knot_zonedb_find h ns_db conf.name) conf h).res = KNOT_EOK →
      zone_loader_step env ns_db conf h db =
        ((update_zone env (knot_zonedb_find h ns_db conf.name) conf h).heap, db) ∧
      zone_loader_run env ns_db (conf :: rest) h db =
        zone_loader_run env ns_db rest
          (update_zone env (knot_zonedb_find h ns_db conf.name) conf h).heap db) := by
  refine ⟨?_, ?_, ?_, ?_⟩
  · intro env conf h oid oObj st c co hfs ho hmt hc hco hlt hfail
    have heq := update_zone_current_eq env conf h oid oObj st c co hfs ho hmt hc hco
    rw [heq] at hfail ⊢
    obtain ⟨hp1, hpzn, hpcc, hpzo, hpco⟩ :=
      preserve_zone_spec conf oid h oObj c co ho hc hco
    have hne : ¬ oid = h.nextZone := Nat.ne_of_lt hlt
    have hzo' : (preserve_zone conf oid h).2.zone oid = some oObj := by
      rw [hpzo oid hne]
      exact ho
    have RC := update_zone_pipeline_reuse_cases env conf oid h.nextZone
      (preserve_zone conf oid h).2 c { co with zone := some h.nextZone } oObj
      { name := conf.name, contents := some c,
        zonefile_mtime := 0, zonefile_serial := 0 }
      hzo' hc hpzn rfl hpcc hne
    by_cases hb1 : (¬ env.journal conf.name = KNOT_EOK ∧
        ¬ env.journal conf.name = KNOT_ERANGE ∧ ¬ env.journal conf.name = KNOT_ENOENT)
    · obtain ⟨hr, hd, htr, hzoF, hccF, hznF⟩ := RC.1 hb1
      exact ⟨hd, hzoF, hccF, hznF⟩
    · by_cases hb2 : env.sign conf.name false = KNOT_EOK
      · by_cases hb3 : co.nsec3_res = KNOT_EOK
        · exact absurd (RC.2.2.2 hb1 hb2 hb3).1 hfail
        · obtain ⟨hr, hd, htr, hzoF, hccF, hznF⟩ := RC.2.2.1 hb1 hb2 hb3
          exact ⟨hd, hzoF, hccF, hznF⟩
      · obtain ⟨hr, hd, htr, hzoF, hccF, hznF⟩ := RC.2.1 hb1 hb2
        exact ⟨hd, hzoF, hccF, hznF⟩
  · intro env conf h pz st hzl hfs hname hfail
    have hstat : zone_file_status env ((none : Option ZoneId).bind h.zone)
        conf.file = .ZONE_STATUS_FOUND_NEW := by
      simp [zone_file_status, hfs]
    have heq := update_zone_load_eq env conf h none pz st hzl hfs hname
      (Or.inl hstat)
    rw [heq] at hfail ⊢
    obtain ⟨hl1, hlzn, hlcc, hlzo, hlco⟩ :=
      load_zone_success_spec env conf h pz st hzl hfs hname
    obtain ⟨hd, hH⟩ := update_zone_pipeline_fresh_abort env conf none
      h.nextZone (load_zone env conf h).2 h.nextCont
      { zone := some h.nextZone, serial := pz.serial,
        nsec3_res := pz.nsec3_res, is_signed := pz.is_signed }
      { name := pz.name, contents := some h.nextCont,
        zonefile_mtime := st.st_mtime, zonefile_serial := pz.serial }
      hlzn rfl hlcc (Or.inl rfl) hfail
    rw [hH, zone_deep_free_spec _ _ _ _ hlzn rfl]
    exact ⟨hd, by simp [Heap.zone_delCont, Heap.zone_delZone_self],
      by simp [Heap.cont_delCont_self]⟩
  · intro env conf h oid oObj pz st ho hfs hmt hzl hname hlt hocont hfail
    have hstat : zone_file_status env ((some oid).bind h.zone) conf.file =
        .ZONE_STATUS_FOUND_UPDATED := by
      simp [zone_file_status, hfs, ho, hmt]
    have heq := update_zone_load_eq env conf h (some oid) pz st hzl hfs hname
      (Or.inr hstat)
    rw [heq] at hfail ⊢
    obtain ⟨hl1, hlzn, hlcc, hlzo, hlco⟩ :=
      load_zone_success_spec env conf h pz st hzl hfs hname
    have hne : ¬ oid = h.nextZone := Nat.ne_of_lt hlt
    have hzo' : (load_zone env conf h).2.zone oid = some oObj := by
      rw [hlzo oid hne]
      exact ho
    obtain ⟨hd, hH⟩ := update_zone_pipeline_fresh_abort env conf (some oid)
      h.nextZone (load_zone env conf h).2 h.nextCont
      { zone := some h.nextZone, serial := pz.serial,
        nsec3_res := pz.nsec3_res, is_signed := pz.is_signed }
      { name := pz.name, contents := some h.nextCont,
        zonefile_mtime := st.st_mtime, zonefile_serial := pz.serial }
      hlzn rfl hlcc (Or.inr ⟨oid, oObj, rfl, hzo', hocont⟩) hfail
    rw [hH, zone_deep_free_spec _ _ _ _ hlzn rfl]
    refine ⟨hd, ?_, by simp [Heap.zone_delCont, Heap.zone_delZone_self],
      by simp [Heap.cont_delCont_self]⟩
    rw [Heap.zone_delCont, Heap.zone_delZone_ne _ _ _ hne]
    exact hzo'
  · intro env ns_db conf h db rest hfail
    have hstep := zone_loader_step_update_fail env ns_db conf h db hfail
    refine ⟨hstep, ?_⟩
    rw [zone_loader_run_cons, hstep]

/-- Witness for C4: with diff-and-sign failing (envF) the Current path
of the live zone A rolls back — no zone produced, zone 0 untouched,
contents 0 rebound to zone 0, the shell (id 1) gone. -/
theorem C4_witness :
    (update_zone envF (some 0) confA heap0).dst = none ∧
    (update_zone envF (some 0) confA heap0).heap.zone 0 = some zoneAold ∧
    (update_zone envF (some 0) confA heap0).heap.cont 0 =
      some { contA with zone := some 0 } ∧
    (update_zone envF (some 0) confA heap0).heap.zone 1 = none :=
  C4_rollback_and_containment.1 envF confA heap0 0 zoneAold
    { st_mtime := 5 } 0 contA rfl rfl rfl rfl rfl (by decide) (by decide)

end KnotReload
